import Mathlib

/-!
Shallow embedding of the `singles-in-your-area` advert-rendering service
(`src/advert.rs` and `src/main.rs`).

Modelling conventions:
* Rust `u32` values are `Nat` (with explicit `< 2^32` / `< 2^31` bounds where
  narrowing matters); Rust `i32` values are `Int` with explicit range facts.
* External collaborators (font rasterizer, image codec, GeoIP store, the
  filesystem) are parameters: the `Externals` bundle carries the text-measure
  function, the glyph-drawing function, the encoder and the RGB8 conversion.
* Fallible Rust code returns `Except`; a Rust panic is the `RResult.panicked`
  constructor, kept distinct from `Except.error` because `tokio`'s
  `spawn_blocking` converts a worker panic into a `JoinError` at the await
  point.
* `f32` (text scale) is never computed with, so its carrier is a type
  parameter `S`; the pixel buffer of a `DynamicImage` is a type parameter `P`.
-/

/-- Byte vectors (`Vec<u8>`). -/
abbrev Bytes := List UInt8

/-- `src/advert.rs`: supported text alignment options (`enum Align`). -/
inductive Align where
  | Left
  | Center
deriving DecidableEq

/-- `src/advert.rs`: supported text case options (`enum Case`). -/
inductive Case where
  | Default
  | Upper
deriving DecidableEq

/-- The `image` crate's format identifier, restricted to the two variants the
program uses (`ImageFormat::Jpeg`, `ImageFormat::Png`). -/
inductive ImageFormat where
  | Jpeg
  | Png
deriving DecidableEq

/-- `src/advert.rs`: all the different output formats we support
(`enum ImageOutput`). -/
inductive ImageOutput where
  | Jpeg
  | Png
deriving DecidableEq

/-- `src/advert.rs` `ImageOutput::format`: image "format" used by the image
processing library. -/
def ImageOutput.format : ImageOutput → ImageFormat
  | ImageOutput.Jpeg => ImageFormat.Jpeg
  | ImageOutput.Png => ImageFormat.Png

/-- `src/advert.rs` `ImageOutput::mime_type`: image mime type used by the web
server. -/
def ImageOutput.mime_type : ImageOutput → String
  | ImageOutput.Jpeg => "image/jpeg"
  | ImageOutput.Png => "image/png"

/-- Modelled from the spec: `ImageOutput::has_alpha` is called at
`src/main.rs:281` but its definition is not present under `src/`; the spec
says each output format carries a "supports alpha channel" flag
(Png: yes, Jpeg: no). -/
def ImageOutput.has_alpha : ImageOutput → Bool
  | ImageOutput.Jpeg => false
  | ImageOutput.Png => true

/-- `image::Rgba<u8>`: an RGBA color, four `u8` channels. -/
structure Rgba where
  r : UInt8
  g : UInt8
  b : UInt8
  a : UInt8
deriving DecidableEq

/-- `ab_glyph::PxScale` with the `f32` carrier abstracted to `S` (the program
never computes with the scale, it only passes it to the rasterizer). -/
structure PxScale (S : Type) where
  x : S
  y : S

/-- `image::DynamicImage` with the pixel payload abstracted to `P`.
`hasAlpha` is the value of `image.color().has_alpha()`; drawing text mutates
pixels only, never the color type. -/
structure DynamicImage (P : Type) where
  hasAlpha : Bool
  pixels : P

/-- `DynamicImage::into_rgb8` modelled with an abstract pixel conversion
`toRgb8`: the result is a 3-channel RGB buffer, so it has no alpha channel. -/
def DynamicImage.into_rgb8 (toRgb8 : P → P) (img : DynamicImage P) :
    DynamicImage P :=
  ⟨false, toRgb8 img.pixels⟩

/-- `src/advert.rs`: simple struct that maps to config file entries
(`struct AdvertDefinition`). The five `u32` fields are `Nat`s. -/
structure AdvertDefinition (S : Type) where
  image : String
  image_width : Nat
  image_height : Nat
  frames : Nat
  text_align : Align
  text_x : Nat
  text_y : Nat
  text_color : Rgba
  text_scale : S
  text_case : Case
  output_format : ImageOutput
  text_prefix : String

/-- `src/advert.rs`: fancier struct that we get after a bit of config
post-processing (`struct Advert`); the numeric fields are `i32` now. -/
structure Advert (S P : Type) where
  image : DynamicImage P
  image_width : Int
  image_height : Int
  frames : Int
  text_align : Align
  text_x : Int
  text_y : Int
  text_color : Rgba
  text_scale : PxScale S
  text_case : Case
  output_format : ImageOutput
  text_prefix : String

/-- `i32::try_from(u32)`: succeeds exactly when the value fits in an `i32`. -/
def i32_try_from_u32 (n : Nat) : Option Int :=
  if n < 2 ^ 31 then some (n : Int) else none

/-- Outcome of a constructor that can panic (`expect` / `unwrap_or_else`
with a `panic!` body): either a fatal panic or a value. -/
inductive OpenResult (S P : Type) where
  | panicked (msg : String)
  | ok (a : Advert S P)

/-- `src/advert.rs` `Advert::open`: load an `Advert` from its definition.
The filesystem open and the PNG decode are external: `opened` is the result
of `ImageReader::open`, `decoded` the result of `reader.decode()` (the
reader's format is forced to PNG first). Every `expect` is a panic. -/
def Advert.open' (opened : Except String Unit)
    (decoded : Except String (DynamicImage P))
    (definition : AdvertDefinition S) : OpenResult S P :=
  match opened with
  | Except.error e =>
      OpenResult.panicked
        ("failed to open image \x22" ++ definition.image ++ "\x22: " ++ e)
  | Except.ok _ =>
    match decoded with
    | Except.error _ => OpenResult.panicked "failed to decode image"
    | Except.ok image =>
      match i32_try_from_u32 definition.image_width with
      | none => OpenResult.panicked "image_width must be less than 2147483647"
      | some image_width =>
        match i32_try_from_u32 definition.image_height with
        | none => OpenResult.panicked "image_height must be less than 2147483647"
        | some image_height =>
          match i32_try_from_u32 definition.frames with
          | none => OpenResult.panicked "frames must be less than 2147483647"
          | some frames =>
            match i32_try_from_u32 definition.text_x with
            | none => OpenResult.panicked "text_x must be less than 2147483647"
            | some text_x =>
              match i32_try_from_u32 definition.text_y with
              | none => OpenResult.panicked "text_y must be less than 2147483647"
              | some text_y =>
                OpenResult.ok
                  ⟨image, image_width, image_height, frames,
                   definition.text_align, text_x, text_y,
                   definition.text_color,
                   ⟨definition.text_scale, definition.text_scale⟩,
                   definition.text_case, definition.output_format,
                   AdvertDefinition.text_prefix definition⟩

/-- `src/main.rs`: fallback fake location for when GeoIP lookup fails
(`const DEFAULT_CITY`). -/
def DEFAULT_CITY : String := "your area"

/-- `src/main.rs`: `static PLAIN_TEXT_CONTENT_TYPE`. -/
def PLAIN_TEXT_CONTENT_TYPE : String := "text/plain; charset=utf-8"

/-- Inner `maxminddb::geoip2::city::City` record: an optional map of
localized names. The `BTreeMap` is modelled as its iteration-ordered entry
list, so `first_key_value` is the head of the list. -/
structure CityNames where
  names : Option (List (String × String))

/-- `maxminddb::geoip2::City`: an optional city sub-record. -/
structure CityRecord where
  city : Option CityNames

/-- Outcome of `GEOIP.lookup::<geoip2::City>(addr)`: the lookup can error
(`Err`), find no record (`Ok(None)`), or return a record (`Ok(Some _)`). -/
inductive GeoLookup where
  | err
  | okNone
  | okSome (c : CityRecord)

/-- `src/main.rs` `get_city_from_ip`: get an approximate city from an IP
address, falling back to a default on failure. Transcribes the
`.ok().flatten().and_then(city).and_then(names).and_then(first_key_value)`
chain with `unwrap_or_else(DEFAULT_CITY)` at the end. -/
def get_city_from_ip (r : GeoLookup) : String :=
  let fromOk : Option CityRecord :=
    match r with
    | GeoLookup.err => none
    | GeoLookup.okNone => none
    | GeoLookup.okSome c => some c
  (((fromOk.bind CityRecord.city).bind CityNames.names).bind
      (fun names => Option.map (fun p => p.2) names.head?)).getD DEFAULT_CITY

/-- ASCII fragment of Rust `char` uppercasing: `'a'..='z'` maps down by 32.
Non-ASCII simple and multi-char uppercase mappings of `str::to_uppercase`
are elided; they never produce an ASCII lowercase letter, which is the only
property the program relies on. -/
def uppercase_char (c : Char) : Char :=
  if 97 ≤ c.toNat ∧ c.toNat ≤ 122 then Char.ofNat (c.toNat - 32) else c

/-- Model of `str::to_uppercase` (external standard-library collaborator). -/
def to_uppercase (s : String) : String :=
  String.mk (s.data.map uppercase_char)

/-- `src/main.rs:247-250`: handle the desired text case. -/
def case_transform (text_case : Case) (location : String) : String :=
  match text_case with
  | Case.Default => location
  | Case.Upper => to_uppercase location

/-- `src/main.rs:247-253`: the final display string — the untransformed
`text_prefix` concatenated in front of the case-transformed location. -/
def display_text (advert : Advert S P) (location : String) : String :=
  Advert.text_prefix advert ++ case_transform advert.text_case location

/-- `i32::checked_sub`: `None` exactly on two's-complement overflow of the
mathematical difference, i.e. when `a - b` falls outside `[-2^31, 2^31)`. -/
def i32_checked_sub (a b : Int) : Option Int :=
  if -(2 ^ 31) ≤ a - b ∧ a - b < 2 ^ 31 then some (a - b) else none

/-- `src/main.rs:259-262`: calculate the x coordinate. `text_width` is a
non-negative `i32` here, so `text_width / 2` agrees with Rust's truncating
`i32` division. -/
def compute_x (text_align : Align) (text_x text_width : Int) : Int :=
  match text_align with
  | Align.Left => text_x
  | Align.Center => (i32_checked_sub text_x (text_width / 2)).getD 0

/-- The external collaborators of the render pipeline: `imageproc::text_size`
(with the static `FONT` baked in), `imageproc::draw_text_mut` (likewise), the
`image` crate encoder behind `DynamicImage::write_to`, and the pixel
conversion behind `DynamicImage::into_rgb8`. -/
structure Externals (S P : Type) where
  measure : PxScale S → String → Nat
  draw : P → Rgba → Int → Int → PxScale S → String → P
  enc : DynamicImage P → ImageFormat → Except String Bytes
  toRgb8 : P → P

/-- `src/main.rs:281-289`: the encode step of the compositor — convert to
3-channel RGB first when the source has alpha and the output format cannot
represent it, then encode; map the codec error into the render error. -/
def encode_image (enc : DynamicImage P → ImageFormat → Except String Bytes)
    (toRgb8 : P → P) (output_format : ImageOutput) (image : DynamicImage P) :
    Except String Bytes :=
  let image_result :=
    if image.hasAlpha && !(ImageOutput.has_alpha output_format) then
      enc (DynamicImage.into_rgb8 toRgb8 image) (ImageOutput.format output_format)
    else
      enc image (ImageOutput.format output_format)
  Except.mapError (fun e => "failed to encode output image: " ++ e) image_result

/-- Result of running the synchronous compositor closure: the `Result` the
closure returns, or a Rust panic (the `expect` at `src/main.rs:256`). -/
inductive RResult (α : Type) where
  | ok (a : α)
  | err (e : String)
  | panicked (msg : String)
deriving DecidableEq

/-- A returned `Result` maps into `RResult` without a panic. -/
def exceptToRResult : Except String α → RResult α
  | Except.ok a => RResult.ok a
  | Except.error e => RResult.err e

/-- `src/main.rs` `render_location_to_image_sync`: actual synchronous
implementation of the render. `now` is the `iso_string()` timestamp used
only in log lines; the first component collects the `println!` output. -/
def render_location_to_image_sync (ext : Externals S P) (now : String)
    (advert : Advert S P) (location : String) : List String × RResult Bytes :=
  let image := advert.image
  let image_width := advert.image_width
  let image_height := advert.image_height
  let text_x := advert.text_x
  let text_y := advert.text_y
  let text_scale := advert.text_scale
  let text : String := display_text advert location
  let text_width_u32 : Nat := Externals.measure ext text_scale text
  if text_width_u32 < 2 ^ 31 then
    let text_width : Int := (text_width_u32 : Int)
    let x := compute_x advert.text_align text_x text_width
    let log : String :=
      if x + text_width > image_width then
        "[" ++ now ++ "] hit, overflowed by " ++
          toString (x + text_width - image_width) ++ "px"
      else
        "[" ++ now ++ "] hit"
    let image :=
      (List.range (Int.toNat advert.frames)).foldl
        (fun img frame =>
          let y := text_y + (frame : Int) * image_height
          ⟨img.hasAlpha,
           Externals.draw ext img.pixels advert.text_color x y text_scale text⟩)
        image
    ([log],
     exceptToRResult
       (encode_image (Externals.enc ext) (Externals.toRgb8 ext)
         advert.output_format image))
  else
    ([], RResult.panicked "text width too large to fit in an i32")

/-- `src/main.rs` `render_location_to_image`: the async wrapper. The
semaphore acquire/release is modelled by the gate transition system below;
`tokio::task::spawn_blocking` returns the closure's `Result`, and a closure
that panicked surfaces as a `JoinError`, which `unwrap_or_else` maps to
`Err("image render task failed to complete")`. -/
def render_location_to_image (ext : Externals S P) (now : String)
    (advert : Advert S P) (location : String) : Except String Bytes :=
  match (render_location_to_image_sync ext now advert location).2 with
  | RResult.ok b => Except.ok b
  | RResult.err e => Except.error e
  | RResult.panicked _ => Except.error "image render task failed to complete"

/-- An HTTP response as the handler builds it: status code, the single
`CONTENT_TYPE` header, and the body bytes. -/
structure HttpResponse where
  status : Nat
  content_type : String
  body : Bytes
deriving DecidableEq

/-- Rust `String::into::<Vec<u8>>`: the UTF-8 bytes of the string. -/
def string_into_bytes (s : String) : Bytes := s.toUTF8.toList

/-- Rust `Debug` formatting of a `String` (`{:?}`): wraps in double quotes.
Escaping of embedded quotes, backslashes and control characters is elided;
none occur in the fixed error messages of this program. -/
def debug_format (s : String) : String := "\x22" ++ s ++ "\x22"

/-- `src/main.rs` `fake_advert_handler`: handles a request to the
`/ads/<image_name>` endpoint. `config` is the `CONFIG` map (`CONFIG.get`),
`geo` the GeoIP city lookup keyed by the caller's IP, `socket_addr` the
optional remote address. -/
def fake_advert_handler {S P Ip : Type} (ext : Externals S P) (now : String)
    (config : String → Option (Advert S P)) (geo : Ip → GeoLookup)
    (image_name : String) (socket_addr : Option Ip) : HttpResponse :=
  match config image_name with
  | some advert =>
    let image : Except String Bytes :=
      match socket_addr with
      | some sa =>
          Except.mapError (fun e => "Error encoding image: " ++ debug_format e)
            (render_location_to_image ext now advert (get_city_from_ip (geo sa)))
      | none => Except.error "no remote address"
    match image with
    | Except.ok image =>
        ⟨200, ImageOutput.mime_type (Advert.output_format advert), image⟩
    | Except.error e =>
        ⟨500, PLAIN_TEXT_CONTENT_TYPE, string_into_bytes e⟩
  | none =>
      ⟨404, PLAIN_TEXT_CONTENT_TYPE,
       string_into_bytes "resource not found on server"⟩

/-- A request's phase with respect to the render gate: waiting on
`RENDER_SEMAPHORE.acquire().await`, inside the guarded section, or finished
(permit dropped). -/
inductive TaskPhase where
  | waiting
  | rendering
  | done
deriving DecidableEq

/-- The three exit paths of the guarded section of
`render_location_to_image` (src/main.rs:221-232): the compositor returned
`Ok`, the compositor returned `Err`, or the `spawn_blocking` worker failed
to complete (`JoinError`). -/
inductive Outcome where
  | ok
  | renderError
  | joinError
deriving DecidableEq

/-- State of the render gate: free permits of `RENDER_SEMAPHORE` plus the
phase of every request task. -/
structure GateState where
  available : Nat
  tasks : List TaskPhase
deriving DecidableEq

/-- Number of tasks currently inside the guarded section. -/
def renderingCount (ts : List TaskPhase) : Nat :=
  ts.count TaskPhase.rendering

/-- Transitions of the render gate, transcribing
`render_location_to_image`: `acquire` completes an
`RENDER_SEMAPHORE.acquire().await` (enabled only while a permit is free —
a waiting caller stays suspended otherwise); `finish` exits the guarded
section through any of the three exit paths, and in every case
`drop(render_permit)` returns the permit (src/main.rs:230 runs after the
`await` regardless of whether the result is `Ok`, `Err`, or the
`unwrap_or_else`-mapped `JoinError`). -/
inductive GateStep : GateState → GateState → Prop where
  | acquire (n : Nat) (l r : List TaskPhase) :
      GateStep ⟨n + 1, l ++ TaskPhase.waiting :: r⟩
               ⟨n, l ++ TaskPhase.rendering :: r⟩
  | finish (n : Nat) (o : Outcome) (l r : List TaskPhase) :
      GateStep ⟨n, l ++ TaskPhase.rendering :: r⟩
               ⟨n + 1, l ++ TaskPhase.done :: r⟩

/-- Observable program effects at the granularity needed to place lazy
initialization: `CONFIG` is a `std::sync::LazyLock` (src/main.rs:29) whose
initializer `load_config` — which runs `Advert::open` on every configured
entry — executes at the first dereference of `CONFIG`. `config_force` is
such a dereference. -/
inductive Effect where
  | println (s : String)
  | config_force
  | serve
deriving DecidableEq

/-- The effect trace of `main` (src/main.rs:51-100) up to and including
binding the listener: three `println!` calls and `warp::serve(..).run(..)`.
Building the warp filters only constructs closures; no statement of `main`
dereferences `CONFIG`, so no `config_force` effect occurs before `serve`.
Timestamp and cargo name/version interpolations are elided from the log
strings. -/
def main_effects : List Effect :=
  [Effect.println "Initializing",
   Effect.println "Done loading images",
   Effect.println "Starting web server on port 3035...",
   Effect.serve]

/-- The first effect of `fake_advert_handler` (src/main.rs:109): the
`CONFIG.get(&image_name)` dereference, which on the first advert request
forces the lazy initializer and runs template construction. -/
def fake_advert_handler_first_effect : Effect := Effect.config_force

/-- Concrete advert used to instantiate theorems with hypotheses. -/
def sampleAdvert : Advert Unit Unit :=
  ⟨⟨true, ()⟩, 100, 50, 1, Align.Center, 10, 20, ⟨0, 0, 0, 255⟩, ⟨(), ()⟩,
   Case.Upper, ImageOutput.Png, "singles near "⟩

/-- Concrete raw definition matching `sampleAdvert`. -/
def sampleDefinition : AdvertDefinition Unit :=
  ⟨"advert.png", 100, 50, 1, Align.Center, 10, 20, ⟨0, 0, 0, 255⟩, (),
   Case.Upper, ImageOutput.Png, "singles near "⟩

/-- Concrete external collaborators: a 10px-wide measurement, a draw that
returns the buffer unchanged, an encoder that succeeds with two bytes. -/
def sampleExternals : Externals Unit Unit :=
  ⟨fun _ _ => 10, fun p _ _ _ _ _ => p, fun _ _ => Except.ok [7, 7], id⟩

/-- Concrete externals whose encoder always fails. -/
def failingEncoderExternals : Externals Unit Unit :=
  ⟨fun _ _ => 10, fun p _ _ _ _ _ => p,
   fun _ _ => Except.error "mock codec failure", id⟩

/-- Concrete externals whose measured text width does not fit in an `i32`. -/
def wideTextExternals : Externals Unit Unit :=
  ⟨fun _ _ => 2 ^ 31, fun p _ _ _ _ _ => p, fun _ _ => Except.ok [7, 7], id⟩

/-- Concrete one-entry config map. -/
def sampleConfig : String → Option (Advert Unit Unit) :=
  fun name => if name = "ad1" then some sampleAdvert else none

/-- Concrete GeoIP lookup that always errors. -/
def sampleGeo : Unit → GeoLookup := fun _ => GeoLookup.err

/-- Concrete advert with `Case::Default` and `Align::Left`. -/
def defaultCaseAdvert : Advert Unit Unit :=
  ⟨⟨false, ()⟩, 100, 50, 1, Align.Left, 10, 20, ⟨0, 0, 0, 255⟩, ⟨(), ()⟩,
   Case.Default, ImageOutput.Jpeg, "hot singles in "⟩

/-- `String.append` concatenates the character lists. -/
theorem string_data_append (s t : String) : (s ++ t).data = s.data ++ t.data := by
  cases s; cases t; rfl

/-- `Char.ofNat` of a valid code point round-trips through `toNat`. -/
theorem char_toNat_ofNat (n : Nat) (hn : n.isValidChar) :
    (Char.ofNat n).toNat = n := by
  simp [Char.ofNat, hn, Char.toNat, Char.ofNatAux, UInt32.toNat,
    BitVec.toNat_ofNatLt]

/-- The ASCII uppercase map never produces a lowercase ASCII letter. -/
theorem uppercase_char_not_lower_ascii (c : Char) :
    ¬(97 ≤ (uppercase_char c).toNat ∧ (uppercase_char c).toNat ≤ 122) := by
  unfold uppercase_char
  by_cases h : 97 ≤ c.toNat ∧ c.toNat ≤ 122
  · rw [if_pos h]
    have hv : (c.toNat - 32).isValidChar := by
      unfold Nat.isValidChar
      omega
    have hq := char_toNat_ofNat (c.toNat - 32) hv
    omega
  · rw [if_neg h]
    exact h

/-- C1: evaluation of the draw-x computation at the failing input. With
`Center` alignment, `text_x = 0` and measured `text_width = 2`, the computed
draw x-coordinate is `-1`, i.e. negative: `i32::checked_sub` only fails on
two's-complement overflow, which cannot happen for these non-negative
operands, so the `unwrap_or(0)` clamp at src/main.rs:261 never fires. -/
theorem compute_x_center_goes_negative :
    compute_x Align.Center 0 2 = -1 ∧ compute_x Align.Center 0 2 < 0 := by
  constructor
  · decide
  · decide

/-- C2: location resolution is total and falls back to the verbatim string
"your area" in every failure mode — lookup error, absent record, record
without a city field, city without a names map, and empty names map — and
otherwise returns the first entry of the names map in store iteration
order. -/
theorem get_city_from_ip_fallback :
    get_city_from_ip GeoLookup.err = "your area" ∧
    get_city_from_ip GeoLookup.okNone = "your area" ∧
    get_city_from_ip (GeoLookup.okSome ⟨none⟩) = "your area" ∧
    get_city_from_ip (GeoLookup.okSome ⟨some ⟨none⟩⟩) = "your area" ∧
    get_city_from_ip (GeoLookup.okSome ⟨some ⟨some []⟩⟩) = "your area" ∧
    ∀ (p : String × String) (rest : List (String × String)),
      get_city_from_ip (GeoLookup.okSome ⟨some ⟨some (p :: rest)⟩⟩) = p.2 := by
  refine ⟨rfl, rfl, rfl, rfl, rfl, ?_⟩
  intro p rest
  rfl

/-- C7: the final display string is the untransformed `text_prefix`
concatenated in front of the case-transformed location (`Upper` uppercases
the location, `Default` passes it through verbatim), with no other
processing; under `Upper` the location part contains no lowercase ASCII
letter. -/
theorem display_text_case_invariant {S P : Type} (advert : Advert S P)
    (location : String) :
    (advert.text_case = Case.Upper →
      (display_text advert location).data =
        (Advert.text_prefix advert).data ++ (to_uppercase location).data ∧
      ∀ c ∈ (to_uppercase location).data,
        ¬(97 ≤ c.toNat ∧ c.toNat ≤ 122)) ∧
    (advert.text_case = Case.Default →
      (display_text advert location).data =
        (Advert.text_prefix advert).data ++ location.data) := by
  constructor
  · intro h
    constructor
    · rw [display_text, h, string_data_append]
      rfl
    · intro c hc
      have hdata : (to_uppercase location).data =
          location.data.map uppercase_char := rfl
      rw [hdata] at hc
      obtain ⟨b, _, hb⟩ := List.mem_map.mp hc
      rw [← hb]
      exact uppercase_char_not_lower_ascii b
  · intro h
    rw [display_text, h, string_data_append]
    rfl

/-- C9: the compositor is deterministic — its output bytes depend only on
the `(template, location)` input, not on the timestamp that feeds the hit /
overflow log lines, so the overflow-diagnostic branch never alters the
rendered result, at the synchronous level and through the async wrapper. -/
theorem render_deterministic {S P : Type} (ext : Externals S P)
    (advert : Advert S P) (location : String) (now₁ now₂ : String) :
    (render_location_to_image_sync ext now₁ advert location).2 =
      (render_location_to_image_sync ext now₂ advert location).2 ∧
    render_location_to_image ext now₁ advert location =
      render_location_to_image ext now₂ advert location := by
  have h : (render_location_to_image_sync ext now₁ advert location).2 =
      (render_location_to_image_sync ext now₂ advert location).2 := by
    simp only [render_location_to_image_sync]
    by_cases hW : Externals.measure ext advert.text_scale
        (display_text advert location) < 2 ^ 31
    · simp only [if_pos hW]
    · simp only [if_neg hW]
  refine ⟨h, ?_⟩
  unfold render_location_to_image
  rw [h]

/-- C10: the handler looks the template name up before checking for a client
address — an unconfigured name yields the 404 response for every address
value, including a missing one, and the "no remote address" 500 is only
produced once the name lookup has succeeded. -/
theorem lookup_precedes_address_check {S P Ip : Type} (ext : Externals S P)
    (now : String) (config : String → Option (Advert S P))
    (geo : Ip → GeoLookup) (image_name : String) :
    (∀ socket_addr : Option Ip, config image_name = none →
      fake_advert_handler ext now config geo image_name socket_addr =
        ⟨404, PLAIN_TEXT_CONTENT_TYPE,
         string_into_bytes "resource not found on server"⟩) ∧
    (∀ advert, config image_name = some advert →
      fake_advert_handler ext now config geo image_name none =
        ⟨500, PLAIN_TEXT_CONTENT_TYPE, string_into_bytes "no remote address"⟩) := by
  constructor
  · intro socket_addr h
    simp [fake_advert_handler, h]
  · intro advert h
    simp [fake_advert_handler, h]

/-- C10 witness at concrete inputs: the one-entry sample config, one
unknown name with a missing address, and the configured name with a missing
address. -/
theorem lookup_precedes_address_check_witness :
    fake_advert_handler sampleExternals "t" sampleConfig sampleGeo "missing"
        (none : Option Unit) =
      ⟨404, PLAIN_TEXT_CONTENT_TYPE,
       string_into_bytes "resource not found on server"⟩ ∧
    fake_advert_handler sampleExternals "t" sampleConfig sampleGeo "ad1"
        (none : Option Unit) =
      ⟨500, PLAIN_TEXT_CONTENT_TYPE, string_into_bytes "no remote address"⟩ :=
  ⟨(lookup_precedes_address_check sampleExternals "t" sampleConfig sampleGeo
      "missing").1 none rfl,
   (lookup_precedes_address_check sampleExternals "t" sampleConfig sampleGeo
      "ad1").2 sampleAdvert rfl⟩

/-- C4: the advert endpoint's terminal outcomes — unknown template name
gives 404 with a plain-text body; configured name but missing client
address gives 500 with the "no remote address" plain-text body; a
successful render gives 200 with the encoded bytes as body and the
template's declared MIME type (`image/png` for `Png`, `image/jpeg` for
`Jpeg`); a render failure (compositor error or worker-execution failure)
gives 500 with a plain-text body describing the error. -/
theorem fake_advert_handler_status_map {S P Ip : Type} (ext : Externals S P)
    (now : String) (config : String → Option (Advert S P))
    (geo : Ip → GeoLookup) (image_name : String) (socket_addr : Option Ip) :
    (config image_name = none →
      fake_advert_handler ext now config geo image_name socket_addr =
        ⟨404, PLAIN_TEXT_CONTENT_TYPE,
         string_into_bytes "resource not found on server"⟩) ∧
    (∀ advert, config image_name = some advert → socket_addr = none →
      fake_advert_handler ext now config geo image_name socket_addr =
        ⟨500, PLAIN_TEXT_CONTENT_TYPE, string_into_bytes "no remote address"⟩) ∧
    (∀ advert sa b, config image_name = some advert → socket_addr = some sa →
      render_location_to_image ext now advert (get_city_from_ip (geo sa)) =
        Except.ok b →
      fake_advert_handler ext now config geo image_name socket_addr =
        ⟨200, ImageOutput.mime_type (Advert.output_format advert), b⟩) ∧
    (∀ advert sa e, config image_name = some advert → socket_addr = some sa →
      render_location_to_image ext now advert (get_city_from_ip (geo sa)) =
        Except.error e →
      fake_advert_handler ext now config geo image_name socket_addr =
        ⟨500, PLAIN_TEXT_CONTENT_TYPE,
         string_into_bytes ("Error encoding image: " ++ debug_format e)⟩) ∧
    ImageOutput.mime_type ImageOutput.Png = "image/png" ∧
    ImageOutput.mime_type ImageOutput.Jpeg = "image/jpeg" := by
  refine ⟨?_, ?_, ?_, ?_, rfl, rfl⟩
  · intro h
    simp [fake_advert_handler, h]
  · intro advert h hsa
    subst hsa
    simp [fake_advert_handler, h]
  · intro advert sa b h hsa hr
    subst hsa
    simp [fake_advert_handler, h, hr, Except.mapError]
  · intro advert sa e h hsa hr
    subst hsa
    simp [fake_advert_handler, h, hr, Except.mapError]

/-- C4 witness: all four outcomes at concrete inputs — unknown name,
configured name without an address, successful render, failing encoder. -/
theorem fake_advert_handler_status_map_witness :
    fake_advert_handler sampleExternals "t" sampleConfig sampleGeo "missing"
        (none : Option Unit) =
      ⟨404, PLAIN_TEXT_CONTENT_TYPE,
       string_into_bytes "resource not found on server"⟩ ∧
    fake_advert_handler sampleExternals "t" sampleConfig sampleGeo "ad1"
        (none : Option Unit) =
      ⟨500, PLAIN_TEXT_CONTENT_TYPE, string_into_bytes "no remote address"⟩ ∧
    fake_advert_handler sampleExternals "t" sampleConfig sampleGeo "ad1"
        (some ()) =
      ⟨200, "image/png", [7, 7]⟩ ∧
    fake_advert_handler failingEncoderExternals "t" sampleConfig sampleGeo
        "ad1" (some ()) =
      ⟨500, PLAIN_TEXT_CONTENT_TYPE,
       string_into_bytes
         ("Error encoding image: " ++
           debug_format "failed to encode output image: mock codec failure")⟩ :=
  ⟨(fake_advert_handler_status_map sampleExternals "t" sampleConfig sampleGeo
      "missing" none).1 rfl,
   (fake_advert_handler_status_map sampleExternals "t" sampleConfig sampleGeo
      "ad1" none).2.1 sampleAdvert rfl rfl,
   (fake_advert_handler_status_map sampleExternals "t" sampleConfig sampleGeo
      "ad1" (some ())).2.2.1 sampleAdvert () [7, 7] rfl rfl rfl,
   (fake_advert_handler_status_map failingEncoderExternals "t" sampleConfig
      sampleGeo "ad1" (some ())).2.2.2.1 sampleAdvert ()
      "failed to encode output image: mock codec failure" rfl rfl rfl⟩

/-- C5: the encode step branches on alpha support — when the source buffer
has an alpha channel and the output format does not (`Jpeg`), the buffer is
first converted to the 3-channel representation (which has no alpha
channel) and that converted buffer is what reaches the encoder; otherwise
the buffer is encoded directly; and an encoder failure surfaces as the
compositor's error value carrying the codec error, not as a panic. -/
theorem encode_image_alpha_cases {P : Type}
    (enc : DynamicImage P → ImageFormat → Except String Bytes)
    (toRgb8 : P → P) (fmt : ImageOutput) (img : DynamicImage P) :
    (img.hasAlpha = true → fmt = ImageOutput.Jpeg →
      encode_image enc toRgb8 fmt img =
        Except.mapError (fun e => "failed to encode output image: " ++ e)
          (enc (DynamicImage.into_rgb8 toRgb8 img) ImageFormat.Jpeg) ∧
      (DynamicImage.into_rgb8 toRgb8 img).hasAlpha = false) ∧
    (img.hasAlpha = false ∨ fmt = ImageOutput.Png →
      encode_image enc toRgb8 fmt img =
        Except.mapError (fun e => "failed to encode output image: " ++ e)
          (enc img (ImageOutput.format fmt))) ∧
    (∀ (S : Type) (ext : Externals S P) (now location : String)
       (advert : Advert S P) (e : String),
      Externals.measure ext (Advert.text_scale advert)
          (display_text advert location) < 2 ^ 31 →
      (∀ b f, Externals.enc ext b f = Except.error e) →
      (render_location_to_image_sync ext now advert location).2 =
        RResult.err ("failed to encode output image: " ++ e)) := by
  refine ⟨?_, ?_, ?_⟩
  · intro hA hF
    subst hF
    refine ⟨?_, rfl⟩
    simp [encode_image, hA, ImageOutput.has_alpha, DynamicImage.into_rgb8,
      ImageOutput.format]
  · intro h
    rcases h with hA | hF
    · simp [encode_image, hA]
    · subst hF
      simp [encode_image, ImageOutput.has_alpha]
  · intro S ext now location advert e hW henc
    have hW2 : Externals.measure ext (Advert.text_scale advert)
        (display_text advert location) < 2147483648 := hW
    simp [render_location_to_image_sync, hW2, encode_image, henc,
      Except.mapError, exceptToRResult]

/-- C5 witness: the three cases at concrete inputs — an alpha source
encoded to Jpeg, an alpha-free source encoded directly, and a failing
encoder surfacing as the compositor's error value. -/
theorem encode_image_alpha_cases_witness :
    (encode_image (fun _ _ => Except.ok ([3] : Bytes)) (id : Unit → Unit)
        ImageOutput.Jpeg ⟨true, ()⟩ =
      Except.mapError (fun e => "failed to encode output image: " ++ e)
        ((fun _ _ => Except.ok ([3] : Bytes))
          (DynamicImage.into_rgb8 id ⟨true, ()⟩) ImageFormat.Jpeg) ∧
     (DynamicImage.into_rgb8 (id : Unit → Unit)
        (⟨true, ()⟩ : DynamicImage Unit)).hasAlpha = false) ∧
    encode_image (fun _ _ => Except.ok ([3] : Bytes)) (id : Unit → Unit)
        ImageOutput.Jpeg ⟨false, ()⟩ =
      Except.mapError (fun e => "failed to encode output image: " ++ e)
        ((fun _ _ => Except.ok ([3] : Bytes)) (⟨false, ()⟩ : DynamicImage Unit)
          (ImageOutput.format ImageOutput.Jpeg)) ∧
    (render_location_to_image_sync failingEncoderExternals "t" sampleAdvert
        "here").2 =
      RResult.err ("failed to encode output image: mock codec failure") :=
  ⟨(encode_image_alpha_cases (fun _ _ => Except.ok ([3] : Bytes)) id
      ImageOutput.Jpeg ⟨true, ()⟩).1 rfl rfl,
   (encode_image_alpha_cases (fun _ _ => Except.ok ([3] : Bytes)) id
      ImageOutput.Jpeg ⟨false, ()⟩).2.1 (Or.inl rfl),
   (encode_image_alpha_cases (fun _ _ => Except.ok ([3] : Bytes)) id
      ImageOutput.Jpeg ⟨false, ()⟩).2.2 Unit failingEncoderExternals "t"
      "here" sampleAdvert "mock codec failure" (by decide) (fun b f => rfl)⟩

/-- C6: a measured text width that does not fit in an `i32` makes the
synchronous compositor panic; the worker boundary contains the panic — the
async wrapper returns the worker-execution error, not a panic — and the
request gets a 500 with a plain-text body, so the failure stays scoped to
that request and is never fatal to the process. -/
theorem text_too_wide_contained {S P Ip : Type} (ext : Externals S P)
    (now : String) (config : String → Option (Advert S P))
    (geo : Ip → GeoLookup) (image_name : String) (advert : Advert S P)
    (sa : Ip) (hcfg : config image_name = some advert)
    (hW : 2 ^ 31 ≤ Externals.measure ext (Advert.text_scale advert)
        (display_text advert (get_city_from_ip (geo sa)))) :
    render_location_to_image_sync ext now advert
        (get_city_from_ip (geo sa)) =
      ([], RResult.panicked "text width too large to fit in an i32") ∧
    render_location_to_image ext now advert (get_city_from_ip (geo sa)) =
      Except.error "image render task failed to complete" ∧
    fake_advert_handler ext now config geo image_name (some sa) =
      ⟨500, PLAIN_TEXT_CONTENT_TYPE,
       string_into_bytes
         ("Error encoding image: " ++
           debug_format "image render task failed to complete")⟩ := by
  have hW2 : 2147483648 ≤ Externals.measure ext (Advert.text_scale advert)
      (display_text advert (get_city_from_ip (geo sa))) := hW
  have hlt : ¬(Externals.measure ext (Advert.text_scale advert)
      (display_text advert (get_city_from_ip (geo sa))) < 2147483648) := by
    omega
  have h1 : render_location_to_image_sync ext now advert
      (get_city_from_ip (geo sa)) =
      ([], RResult.panicked "text width too large to fit in an i32") := by
    simp [render_location_to_image_sync, hlt]
  have h2 : render_location_to_image ext now advert
      (get_city_from_ip (geo sa)) =
      Except.error "image render task failed to complete" := by
    unfold render_location_to_image
    rw [h1]
  refine ⟨h1, h2, ?_⟩
  simp [fake_advert_handler, hcfg, h2, Except.mapError]

/-- C6 witness: concrete externals whose measured width is `2^31`. -/
theorem text_too_wide_contained_witness :
    render_location_to_image_sync wideTextExternals "t" sampleAdvert
        (get_city_from_ip (sampleGeo ())) =
      ([], RResult.panicked "text width too large to fit in an i32") ∧
    render_location_to_image wideTextExternals "t" sampleAdvert
        (get_city_from_ip (sampleGeo ())) =
      Except.error "image render task failed to complete" ∧
    fake_advert_handler wideTextExternals "t" sampleConfig sampleGeo "ad1"
        (some ()) =
      ⟨500, PLAIN_TEXT_CONTENT_TYPE,
       string_into_bytes
         ("Error encoding image: " ++
           debug_format "image render task failed to complete")⟩ :=
  text_too_wide_contained wideTextExternals "t" sampleConfig sampleGeo "ad1"
    sampleAdvert () rfl (le_refl _)

/-- One gate step preserves the permit-accounting invariant: tasks inside
the guarded section plus free permits always total the capacity 2. -/
theorem gate_inv_preserved {s t : GateState} (hstep : GateStep s t)
    (h : renderingCount s.tasks + s.available = 2) :
    renderingCount t.tasks + t.available = 2 := by
  cases hstep with
  | acquire n l r =>
      simp [renderingCount, List.count_append, List.count_cons] at h ⊢
      omega
  | finish n o l r =>
      simp [renderingCount, List.count_append, List.count_cons] at h ⊢
      omega

/-- C3: the render gate starts with exactly 2 permits
(`Semaphore::new(2)`); every reachable state of the gate transition system
— in which `acquire` only completes while a permit is free and every exit
path of the guarded section releases the permit — keeps the permit
accounting exact, so at no point are more than 2 compositor invocations
inside the guarded section. -/
theorem render_gate_capacity_two (ts0 : List TaskPhase) (s : GateState)
    (h0 : ∀ t ∈ ts0, t = TaskPhase.waiting)
    (hr : Relation.ReflTransGen GateStep ⟨2, ts0⟩ s) :
    renderingCount s.tasks + s.available = 2 ∧ renderingCount s.tasks ≤ 2 := by
  have hinit : renderingCount ts0 = 0 := by
    rw [renderingCount, List.count_eq_zero]
    intro hmem
    exact absurd (h0 _ hmem) (by decide)
  have hinv : renderingCount s.tasks + s.available = 2 := by
    induction hr with
    | refl =>
        show renderingCount ts0 + 2 = 2
        omega
    | tail hsteps hstep ih => exact gate_inv_preserved hstep ih
  exact ⟨hinv, by omega⟩

/-- C3 witness: a concrete one-step trace — a single waiting task acquires
one of the two permits. -/
theorem render_gate_capacity_two_witness :
    renderingCount (GateState.mk 1 [TaskPhase.rendering]).tasks +
        (GateState.mk 1 [TaskPhase.rendering]).available = 2 ∧
    renderingCount (GateState.mk 1 [TaskPhase.rendering]).tasks ≤ 2 :=
  render_gate_capacity_two [TaskPhase.waiting] ⟨1, [TaskPhase.rendering]⟩
    (by
      intro t ht
      simpa using ht)
    (Relation.ReflTransGen.single (GateStep.acquire 1 [] []))

/-- C8 counterexample to the original claim's timing: template construction
does not run at startup. `CONFIG` is a lazy cell; no effect of `main`'s
startup sequence forces it — the listener is bound with no template loaded
— while the advert handler's first effect is exactly the forcing
dereference, so a construction failure (an `Advert::open` panic) happens at
first advert-request time, not before serving starts. -/
theorem advert_open_runs_at_request_time :
    Effect.config_force ∉ main_effects ∧
    fake_advert_handler_first_effect = Effect.config_force :=
  ⟨by decide, rfl⟩

/-- `i32::try_from(u32)` returns a value exactly when the input is below
`2^31`, and the value is the input. -/
theorem i32_try_from_u32_eq_some {n : Nat} {x : Int} :
    i32_try_from_u32 n = some x ↔ n < 2 ^ 31 ∧ x = (n : Int) := by
  unfold i32_try_from_u32
  by_cases h : n < 2 ^ 31
  · rw [if_pos h]
    constructor
    · intro hx
      injection hx with hx
      exact ⟨h, hx.symm⟩
    · rintro ⟨-, rfl⟩
      rfl
  · rw [if_neg h]
    constructor
    · intro hx
      exact Option.noConfusion hx
    · rintro ⟨hb, -⟩
      exact absurd hb h

/-- `i32::try_from(u32)` fails exactly when the input does not fit. -/
theorem i32_try_from_u32_eq_none {n : Nat} :
    i32_try_from_u32 n = none ↔ ¬n < 2 ^ 31 := by
  unfold i32_try_from_u32
  by_cases h : n < 2 ^ 31
  · rw [if_pos h]
    constructor
    · intro hx
      exact Option.noConfusion hx
    · intro hn
      exact absurd h hn
  · rw [if_neg h]
    constructor
    · intro _
      exact h
    · intro _
      rfl

/-- Characterization of a successful `Advert::open` once the file opened
and decoded: success is equivalent to all five narrowing conversions
fitting, and the result's fields are the converted config values. -/
theorem advert_open_ok_iff {S P : Type} (u : Unit) (img : DynamicImage P)
    (d : AdvertDefinition S) (a : Advert S P) :
    Advert.open' (Except.ok u) (Except.ok img) d = OpenResult.ok a ↔
      (d.image_width < 2 ^ 31 ∧ d.image_height < 2 ^ 31 ∧
       d.frames < 2 ^ 31 ∧ d.text_x < 2 ^ 31 ∧ d.text_y < 2 ^ 31 ∧
       a = ⟨img, (d.image_width : Int), (d.image_height : Int),
            (d.frames : Int), d.text_align, (d.text_x : Int),
            (d.text_y : Int), d.text_color, ⟨d.text_scale, d.text_scale⟩,
            d.text_case, d.output_format,
            AdvertDefinition.text_prefix d⟩) := by
  unfold Advert.open'
  by_cases h1 : d.image_width < 2 ^ 31
  case neg =>
    rw [i32_try_from_u32_eq_none.mpr h1]
    constructor
    · intro h
      exact OpenResult.noConfusion h
    · rintro ⟨hb, -⟩
      exact absurd hb h1
  case pos =>
  rw [i32_try_from_u32_eq_some.mpr ⟨h1, rfl⟩]
  by_cases h2 : d.image_height < 2 ^ 31
  case neg =>
    rw [i32_try_from_u32_eq_none.mpr h2]
    constructor
    · intro h
      exact OpenResult.noConfusion h
    · rintro ⟨-, hb, -⟩
      exact absurd hb h2
  case pos =>
  rw [i32_try_from_u32_eq_some.mpr ⟨h2, rfl⟩]
  by_cases h3 : d.frames < 2 ^ 31
  case neg =>
    rw [i32_try_from_u32_eq_none.mpr h3]
    constructor
    · intro h
      exact OpenResult.noConfusion h
    · rintro ⟨-, -, hb, -⟩
      exact absurd hb h3
  case pos =>
  rw [i32_try_from_u32_eq_some.mpr ⟨h3, rfl⟩]
  by_cases h4 : d.text_x < 2 ^ 31
  case neg =>
    rw [i32_try_from_u32_eq_none.mpr h4]
    constructor
    · intro h
      exact OpenResult.noConfusion h
    · rintro ⟨-, -, -, hb, -⟩
      exact absurd hb h4
  case pos =>
  rw [i32_try_from_u32_eq_some.mpr ⟨h4, rfl⟩]
  by_cases h5 : d.text_y < 2 ^ 31
  case neg =>
    rw [i32_try_from_u32_eq_none.mpr h5]
    constructor
    · intro h
      exact OpenResult.noConfusion h
    · rintro ⟨-, -, -, -, hb, -⟩
      exact absurd hb h5
  case pos =>
  rw [i32_try_from_u32_eq_some.mpr ⟨h5, rfl⟩]
  constructor
  · intro h
    injection h with h
    subst h
    exact ⟨h1, h2, h3, h4, h5, rfl⟩
  · rintro ⟨-, -, -, -, -, rfl⟩
    rfl

/-- C8 (amended): `Advert::open` is fatal (a panic) exactly when the image
file cannot be opened, the bytes fail to decode as PNG, or one of the five
unsigned config fields does not fit in an `i32`; on success every numeric
field equals the config value and is a non-negative `i32`, and the
resulting template is never mutated (rendering clones the buffer). The
original claim's startup timing is refuted separately: construction runs
lazily at the first advert request, not before the listener binds. -/
theorem advert_open_fatal_conditions {S P : Type}
    (opened : Except String Unit) (decoded : Except String (DynamicImage P))
    (d : AdvertDefinition S) :
    ((∃ a, Advert.open' opened decoded d = OpenResult.ok a) ↔
      ((∃ u, opened = Except.ok u) ∧ (∃ img, decoded = Except.ok img) ∧
       d.image_width < 2 ^ 31 ∧ d.image_height < 2 ^ 31 ∧
       d.frames < 2 ^ 31 ∧ d.text_x < 2 ^ 31 ∧ d.text_y < 2 ^ 31)) ∧
    (∀ a, Advert.open' opened decoded d = OpenResult.ok a →
      a.image_width = (d.image_width : Int) ∧
      a.image_height = (d.image_height : Int) ∧
      a.frames = (d.frames : Int) ∧
      a.text_x = (d.text_x : Int) ∧
      a.text_y = (d.text_y : Int) ∧
      0 ≤ a.image_width ∧ a.image_width < 2 ^ 31 ∧
      0 ≤ a.image_height ∧ a.image_height < 2 ^ 31 ∧
      0 ≤ a.frames ∧ a.frames < 2 ^ 31 ∧
      0 ≤ a.text_x ∧ a.text_x < 2 ^ 31 ∧
      0 ≤ a.text_y ∧ a.text_y < 2 ^ 31) := by
  cases opened with
  | error e =>
      constructor
      · constructor
        · rintro ⟨a, ha⟩
          exact OpenResult.noConfusion ha
        · rintro ⟨⟨u, hu⟩, -⟩
          exact Except.noConfusion hu
      · intro a ha
        exact OpenResult.noConfusion ha
  | ok u =>
    cases decoded with
    | error e2 =>
        constructor
        · constructor
          · rintro ⟨a, ha⟩
            exact OpenResult.noConfusion ha
          · rintro ⟨-, ⟨img, hi⟩, -⟩
            exact Except.noConfusion hi
        · intro a ha
          exact OpenResult.noConfusion ha
    | ok img =>
        constructor
        · constructor
          · rintro ⟨a, ha⟩
            obtain ⟨hb1, hb2, hb3, hb4, hb5, -⟩ :=
              (advert_open_ok_iff u img d a).mp ha
            exact ⟨⟨u, rfl⟩, ⟨img, rfl⟩, hb1, hb2, hb3, hb4, hb5⟩
          · rintro ⟨-, -, hb1, hb2, hb3, hb4, hb5⟩
            exact ⟨_, (advert_open_ok_iff u img d _).mpr
              ⟨hb1, hb2, hb3, hb4, hb5, rfl⟩⟩
        · intro a ha
          obtain ⟨hb1, hb2, hb3, hb4, hb5, hEq⟩ :=
            (advert_open_ok_iff u img d a).mp ha
          subst hEq
          refine ⟨rfl, rfl, rfl, rfl, rfl,
            Int.natCast_nonneg _,
            (by
              show (d.image_width : Int) < 2 ^ 31
              exact_mod_cast hb1),
            Int.natCast_nonneg _,
            (by
              show (d.image_height : Int) < 2 ^ 31
              exact_mod_cast hb2),
            Int.natCast_nonneg _,
            (by
              show (d.frames : Int) < 2 ^ 31
              exact_mod_cast hb3),
            Int.natCast_nonneg _,
            (by
              show (d.text_x : Int) < 2 ^ 31
              exact_mod_cast hb4),
            Int.natCast_nonneg _,
            (by
              show (d.text_y : Int) < 2 ^ 31
              exact_mod_cast hb5)⟩

/-- C8 witness: loading the sample definition with a successfully opened
and decoded image yields exactly the sample advert, with all numeric
fields in the non-negative `i32` range. -/
theorem advert_open_fatal_conditions_witness :
    sampleAdvert.image_width = (sampleDefinition.image_width : Int) ∧
    sampleAdvert.image_height = (sampleDefinition.image_height : Int) ∧
    sampleAdvert.frames = (sampleDefinition.frames : Int) ∧
    sampleAdvert.text_x = (sampleDefinition.text_x : Int) ∧
    sampleAdvert.text_y = (sampleDefinition.text_y : Int) ∧
    0 ≤ sampleAdvert.image_width ∧ sampleAdvert.image_width < 2 ^ 31 ∧
    0 ≤ sampleAdvert.image_height ∧ sampleAdvert.image_height < 2 ^ 31 ∧
    0 ≤ sampleAdvert.frames ∧ sampleAdvert.frames < 2 ^ 31 ∧
    0 ≤ sampleAdvert.text_x ∧ sampleAdvert.text_x < 2 ^ 31 ∧
    0 ≤ sampleAdvert.text_y ∧ sampleAdvert.text_y < 2 ^ 31 :=
  (advert_open_fatal_conditions (Except.ok ()) (Except.ok ⟨true, ()⟩)
    sampleDefinition).2 sampleAdvert rfl

/-- C7 witness: the uppercase advert on the location "apple" and the
default-case advert on the same location. -/
theorem display_text_case_invariant_witness :
    ((display_text sampleAdvert "apple").data =
       (Advert.text_prefix sampleAdvert).data ++ (to_uppercase "apple").data ∧
     ∀ c ∈ (to_uppercase "apple").data, ¬(97 ≤ c.toNat ∧ c.toNat ≤ 122)) ∧
    (display_text defaultCaseAdvert "apple").data =
      (Advert.text_prefix defaultCaseAdvert).data ++ "apple".data :=
  ⟨(display_text_case_invariant sampleAdvert "apple").1 rfl,
   (display_text_case_invariant defaultCaseAdvert "apple").2 rfl⟩
